import Mathlib

/-!
Verification of the orientation-decoding kernel of the Mobile-Sensor-Streamer
repository.  The repository contains three UDP listeners that decode
rotation-vector quaternions into Euler angles:

* `src/Orientation_Fast.py`   (3D cube viewer)
* `src/Sensor_Dashboard.py`   (3D + map dashboard)
* `src/rpy_output_text.py`    (console / CSV output)

Python values arriving from JSON are modelled by `PyVal`; the floating-point
arithmetic of the decoders is modelled over the real numbers, with the inputs
(JSON numerals) as rationals.  `math.atan2`, `math.asin` and `math.degrees`
are modelled by `atan2`, `Real.arcsin` and `degrees`.  The per-packet
processing of each listener (values normalisation, sensor-type gate, decoder
call, tuple unpacking, CSV row emission) is modelled by one `processPacket`
function per listener; the `json.loads` library call used to re-parse a
string-valued `values` field is passed in as an explicit parameter.
-/

/-- Model of a JSON-decoded Python value as it can appear in the `values`
field of an inbound packet.  JSON objects (Python dicts) are not modelled;
no claim involves them. -/
inductive PyVal where
  | num (q : ℚ)
  | str (s : String)
  | boolv (b : Bool)
  | null
  | list (elems : List PyVal)

/-- `True` when every character is an ASCII digit. -/
def allDigits (cs : List Char) : Bool := cs.all Char.isDigit

/-- Numeric value of a digit string. -/
def natOfDigits (cs : List Char) : ℕ := cs.foldl (fun a c => 10 * a + (c.toNat - 48)) 0

/-- Python `float(s)` on an unsigned literal: `digits`, `digits.digits`,
`digits.` or `.digits`.  Exponent forms, `inf`/`nan` and surrounding
whitespace are not modelled; no claim depends on them. -/
def parseUnsignedFloat (cs : List Char) : Option ℚ :=
  let intPart := cs.takeWhile (fun c => c ≠ '.')
  match cs.dropWhile (fun c => c ≠ '.') with
  | [] =>
      if !intPart.isEmpty && allDigits intPart then some (natOfDigits intPart) else none
  | _ :: frac =>
      if (!intPart.isEmpty || !frac.isEmpty) && allDigits intPart && allDigits frac then
        some ((natOfDigits intPart : ℚ) + (natOfDigits frac : ℚ) / (10 : ℚ) ^ frac.length)
      else none

/-- Python `float(s)` on a string: optional sign, then an unsigned literal. -/
def strToFloat (s : String) : Option ℚ :=
  match s.toList with
  | [] => none
  | '-' :: rest => (parseUnsignedFloat rest).map (fun q => -q)
  | '+' :: rest => parseUnsignedFloat rest
  | cs => parseUnsignedFloat cs

/-- Python `float(v)`: numbers convert to themselves, booleans to 0/1,
strings are parsed; `float(None)` and `float(list)` raise `TypeError`,
modelled as `none` (all three decoders catch this exception). -/
def pyFloat : PyVal → Option ℚ
  | .num q => some q
  | .str s => strToFloat s
  | .boolv b => some (if b then 1 else 0)
  | .null => none
  | .list _ => none

/-- Python `len(v)`: defined for strings and lists, raises `TypeError`
(modelled as `none`) for numbers, booleans and `None`. -/
def pyLen : PyVal → Option ℕ
  | .str s => some s.toList.length
  | .list l => some l.length
  | _ => none

/-- Python `v[i]` (zero-based): list indexing, or string indexing which
yields a one-character string. -/
def pyIndex : PyVal → ℕ → Option PyVal
  | .list l, i => l.get? i
  | .str s, i => (s.toList.get? i).map (fun c => PyVal.str (String.mk [c]))
  | _, _ => none

/-- Python `v[:4]`: the first four items of a list, or of a string viewed as
one-character strings.  Only reached after a successful `len`, so the
fall-through is never exercised. -/
def pySlice4 : PyVal → List PyVal
  | .list l => l.take 4
  | .str s => (s.toList.take 4).map (fun c => PyVal.str (String.mk [c]))
  | _ => []

/-- Python `s.lower()`, modelled for ASCII characters. -/
def pyLower (s : String) : List Char := s.toList.map Char.toLower

/-- `True` when the first list is an initial segment of the second. -/
def headMatches : List Char → List Char → Bool
  | [], _ => true
  | _ :: _, [] => false
  | c :: cs, d :: ds => c == d && headMatches cs ds

/-- Python substring test `needle in hay`. -/
def hasSub (needle : List Char) : List Char → Bool
  | [] => headMatches needle []
  | d :: ds => headMatches needle (d :: ds) || hasSub needle ds

/-- Declarative substring containment, used to characterise `hasSub`. -/
def ContainsSeq (needle hay : List Char) : Prop :=
  ∃ pre post, hay = pre ++ needle ++ post

/-- A quaternion as the 4-component array `[x, y, z, w]` used by the sources. -/
structure Quat where
  x : ℝ
  y : ℝ
  z : ℝ
  w : ℝ

/-- `q_fixed = [q[0], -q[1], -q[2], q[3]]` — the y/z axis flip
(Orientation_Fast.py line 30, Sensor_Dashboard.py line 52). -/
noncomputable def q_fixed_of (q : Quat) : Quat := ⟨q.x, -q.y, -q.z, q.w⟩

/-- `q_conj = [-qf[0], -qf[1], -qf[2], qf[3]]` — full conjugation
(Orientation_Fast.py line 31, Sensor_Dashboard.py line 53). -/
noncomputable def q_conj_of (q : Quat) : Quat := ⟨-q.x, -q.y, -q.z, q.w⟩

/-- `math.atan2 y x` over the reals (signed zeros do not exist in `ℝ`;
`atan2 0 0 = 0` as in Python for positive zero). -/
noncomputable def atan2 (y x : ℝ) : ℝ :=
  if 0 < x then Real.arctan (y / x)
  else if x < 0 then
    (if 0 ≤ y then Real.arctan (y / x) + Real.pi else Real.arctan (y / x) - Real.pi)
  else
    (if 0 < y then Real.pi / 2 else if y < 0 then -(Real.pi / 2) else 0)

/-- `math.degrees`. -/
noncomputable def degrees (r : ℝ) : ℝ := r * 180 / Real.pi

/-- The two sequential boundary tests applied to the pitch argument
(Orientation_Fast.py lines 41-42, rpy_output_text.py lines 32-33). -/
noncomputable def clampSeq (t : ℝ) : ℝ :=
  let ta := if t > 1 then 1 else t
  if ta < -1 then -1 else ta

/-- `max(-1.0, min(1.0, t2))` (Sensor_Dashboard.py line 61). -/
noncomputable def clampMinMax (t : ℝ) : ℝ := max (-1) (min 1 t)

/-- Euler extraction of Orientation_Fast.py lines 34-50, whose text is
identical in rpy_output_text.py lines 25-42: roll, pitch, yaw in degrees. -/
noncomputable def eulerFast (x y z w : ℝ) : ℝ × ℝ × ℝ :=
  let t0 := 2 * (w * x + y * z)
  let t1 := 1 - 2 * (x * x + y * y)
  let roll_x := atan2 t0 t1
  let t2 := clampSeq (2 * (w * y - z * x))
  let pitch_y := Real.arcsin t2
  let t3 := 2 * (w * z + x * y)
  let t4 := 1 - 2 * (y * y + z * z)
  let yaw_z := atan2 t3 t4
  (degrees roll_x, degrees pitch_y, degrees yaw_z)

/-- Euler extraction of Sensor_Dashboard.py lines 56-65 (same formulas, with
the min/max form of the clamp). -/
noncomputable def eulerDash (x y z w : ℝ) : ℝ × ℝ × ℝ :=
  let t0 := 2 * (w * x + y * z)
  let t1 := 1 - 2 * (x * x + y * y)
  let roll := atan2 t0 t1
  let t2 := clampMinMax (2 * (w * y - z * x))
  let pitch := Real.arcsin t2
  let t3 := 2 * (w * z + x * y)
  let t4 := 1 - 2 * (y * y + z * z)
  let yaw := atan2 t3 t4
  (degrees roll, degrees pitch, degrees yaw)

/-- `rotmat_from_quat` (Orientation_Fast.py lines 56-61, identical in
Sensor_Dashboard.py lines 69-74), as a triple of rows. -/
noncomputable def rotmat_from_quat (x y z w : ℝ) :
    (ℝ × ℝ × ℝ) × (ℝ × ℝ × ℝ) × (ℝ × ℝ × ℝ) :=
  ((1 - 2 * (y * y + z * z), 2 * (x * y - z * w), 2 * (x * z + y * w)),
   (2 * (x * y + z * w), 1 - 2 * (x * x + z * z), 2 * (y * z - x * w)),
   (2 * (x * z - y * w), 2 * (y * z + x * w), 1 - 2 * (x * x + y * y)))

/-- Dot product of 3-vectors represented as triples. -/
noncomputable def dot3 (u v : ℝ × ℝ × ℝ) : ℝ :=
  u.1 * v.1 + u.2.1 * v.2.1 + u.2.2 * v.2.2

/-- A Python exception crossing the decoder/caller boundary. -/
inductive PyErr where
  | typeError
  | valueError
deriving DecidableEq

/-- Result of `Orientation_Fast.get_rpy_from_quaternion`: either the 3-tuple
`(None, None, None)` of the failure path (lines 21 and 26) or the 4-tuple
`(roll, pitch, yaw, q_conj)` of the success path (line 50). -/
inductive OFRet where
  | invalid3
  | result (roll pitch yaw : ℝ) (q : Quat)

/-- Result of `Sensor_Dashboard.get_rpy_from_quaternion`: the 4-tuple
`(None, None, None, None)` or `(roll, pitch, yaw, q_conj)`. -/
inductive SDRet where
  | invalid4
  | result (roll pitch yaw : ℝ) (q : Quat)

/-- Result of `rpy_output_text.get_rpy_from_quaternion`: the 3-tuple
`(None, None, None)` or `(roll, pitch, yaw)`; no quaternion is returned. -/
inductive TXTRet where
  | invalid3
  | result (roll pitch yaw : ℝ)

namespace OrientationFast

/-- `get_rpy_from_quaternion` of Orientation_Fast.py (lines 19-50).
`len(vals)` raises `TypeError` on a non-sized argument (modelled as
`.error .typeError`); the `float` coercions are inside a
`try/except (ValueError, TypeError, IndexError)` whose handler returns the
3-tuple sentinel. -/
noncomputable def get_rpy_from_quaternion (vals : PyVal) : Except PyErr OFRet :=
  match pyLen vals with
  | Option.none => .error .typeError
  | some n =>
    if n < 4 then .ok .invalid3
    else
      match (pyIndex vals 0).bind pyFloat, (pyIndex vals 1).bind pyFloat,
            (pyIndex vals 2).bind pyFloat, (pyIndex vals 3).bind pyFloat with
      | some x0, some y0, some z0, some w0 =>
          let q : Quat := ⟨(x0 : ℝ), (y0 : ℝ), (z0 : ℝ), (w0 : ℝ)⟩
          let qf := q_fixed_of q
          let qc := q_conj_of qf
          let e := eulerFast qc.x qc.y qc.z qc.w
          .ok (OFRet.result e.1 e.2.1 e.2.2 qc)
      | _, _, _, _ => .ok .invalid3

end OrientationFast

namespace SensorDashboard

/-- `get_rpy_from_quaternion` of Sensor_Dashboard.py (lines 42-66).
The slice `vals[:4]` and the `map(float, ...)` coercions are inside a
`try/except (ValueError, TypeError)` whose handler returns the 4-tuple
sentinel. -/
noncomputable def get_rpy_from_quaternion (vals : PyVal) : Except PyErr SDRet :=
  match pyLen vals with
  | Option.none => .error .typeError
  | some n =>
    if n < 4 then .ok .invalid4
    else
      match (pySlice4 vals).mapM pyFloat with
      | some [x0, y0, z0, w0] =>
          let q : Quat := ⟨(x0 : ℝ), (y0 : ℝ), (z0 : ℝ), (w0 : ℝ)⟩
          let qf := q_fixed_of q
          let qc := q_conj_of qf
          let e := eulerDash qc.x qc.y qc.z qc.w
          .ok (SDRet.result e.1 e.2.1 e.2.2 qc)
      | _ => .ok .invalid4

end SensorDashboard

namespace RpyOutputText

/-- `get_rpy_from_quaternion` of rpy_output_text.py (lines 10-42): same
guards as the Orientation_Fast variant, but no frame correction is applied
and only the three angles are returned. -/
noncomputable def get_rpy_from_quaternion (vals : PyVal) : Except PyErr TXTRet :=
  match pyLen vals with
  | Option.none => .error .typeError
  | some n =>
    if n < 4 then .ok .invalid3
    else
      match (pyIndex vals 0).bind pyFloat, (pyIndex vals 1).bind pyFloat,
            (pyIndex vals 2).bind pyFloat, (pyIndex vals 3).bind pyFloat with
      | some x0, some y0, some z0, some w0 =>
          let e := eulerFast (x0 : ℝ) (y0 : ℝ) (z0 : ℝ) (w0 : ℝ)
          .ok (TXTRet.result e.1 e.2.1 e.2.2)
      | _, _, _, _ => .ok .invalid3

end RpyOutputText

/-- The fields of one inbound JSON packet that the orientation branches read:
`obj.get("type")`, `obj.get("name", default)` and `obj.get("values", [])`. -/
structure Packet where
  ptype : Option ℤ
  name : Option String
  values : Option PyVal

/-- One CSV data row, reduced to its three angle cells; an empty cell is
`none`. -/
structure CsvRow where
  roll : Option ℝ
  pitch : Option ℝ
  yaw : Option ℝ

namespace OrientationFast

/-- The sensor-type gate `sensor_type in [11, 15]` of Orientation_Fast.py
line 207.  `obj.get("type")` may be absent, modelled by `Option`. -/
def gate (t : Option ℤ) : Bool := t == some 11 || t == some 15

/-- The `values` normalisation of Orientation_Fast.py lines 193-202: a string
is re-parsed with `json.loads` (the library call is the parameter `jl`),
falling back to a one-element list; a list passes through; anything else
becomes the empty list. -/
def normalizeVals (jl : String → Option PyVal) : PyVal → PyVal
  | .str s =>
      match jl s with
      | some v => v
      | Option.none => .list [.str s]
  | .list l => .list l
  | _ => .list []

/-- The per-packet orientation handling of `SensorVisualizer.update`
(Orientation_Fast.py lines 193-227), as the observable outcome for one
parsed JSON object: either an uncaught exception, or the optional CSV row
written for it.  The branch mapping `OFRet.invalid3` to
`.error .valueError` is the statement
`roll, pitch, yaw, q = get_rpy_from_quaternion(vals)` of line 208, which
raises `ValueError` when the right-hand side is the 3-tuple sentinel. -/
noncomputable def processPacket (jl : String → Option PyVal) (writerOn : Bool)
    (p : Packet) : Except PyErr (Option CsvRow) :=
  let vals := normalizeVals jl (p.values.getD (.list []))
  if gate p.ptype then
    match get_rpy_from_quaternion vals with
    | .error e => .error e
    | .ok .invalid3 => .error .valueError
    | .ok (.result r pt yw _) =>
        .ok (if writerOn then some ⟨some r, some pt, some yw⟩ else Option.none)
  else .ok Option.none

end OrientationFast

namespace SensorDashboard

/-- The sensor-type gate of Sensor_Dashboard.py line 235:
`stype in [11, 15, 20] or "rotation" in name.lower()`, with
`name = obj.get("name", "")`. -/
def gate (t : Option ℤ) (name : String) : Bool :=
  (t == some 11 || t == some 15 || t == some 20)
    || hasSub (("rotation").toList) (pyLower name)

/-- The `values` normalisation of Sensor_Dashboard.py lines 227-232: a string
is re-parsed with `json.loads`, falling back to a one-element list; unlike
the other two listeners there is no `else` branch, so a non-string value
passes through unchanged even when it is not a list. -/
def normalizeVals (jl : String → Option PyVal) : PyVal → PyVal
  | .str s =>
      match jl s with
      | some v => v
      | Option.none => .list [.str s]
  | v => v

/-- The per-packet orientation handling of `SensorDashboard._update`
(Sensor_Dashboard.py lines 225-240).  The decoder may raise `TypeError`
(through `len`) when the unnormalised `values` is not sized; on the 4-tuple
sentinel the 4-way unpack succeeds and nothing further happens.  `_update`
never calls `self.writer`, so no row is ever produced. -/
noncomputable def processPacket (jl : String → Option PyVal) (_writerOn : Bool)
    (p : Packet) : Except PyErr (Option CsvRow) :=
  let vals := normalizeVals jl (p.values.getD (.list []))
  if gate p.ptype (p.name.getD ("")) then
    match get_rpy_from_quaternion vals with
    | .error e => .error e
    | .ok .invalid4 => .ok Option.none
    | .ok (.result _ _ _ _) => .ok Option.none
  else .ok Option.none

end SensorDashboard

namespace RpyOutputText

/-- The sensor-type gate `sensor_type in [11, 15]` of rpy_output_text.py
line 105. -/
def gate (t : Option ℤ) : Bool := t == some 11 || t == some 15

/-- The `values` normalisation of rpy_output_text.py lines 88-99; `vals` is
initialised to `[]`, so a non-string non-list value yields the empty list. -/
def normalizeVals (jl : String → Option PyVal) : PyVal → PyVal
  | .str s =>
      match jl s with
      | some v => v
      | Option.none => .list [.str s]
  | .list l => .list l
  | _ => .list []

/-- The per-packet handling of `main` in rpy_output_text.py (lines 82-129):
`roll, pitch, yaw` start as `None`, are filled on a gated successful decode,
and one CSV row is written for every packet when the writer is enabled, with
empty cells for `None` angles. -/
noncomputable def processPacket (jl : String → Option PyVal) (writerOn : Bool)
    (p : Packet) : Except PyErr (Option CsvRow) :=
  let vals := normalizeVals jl (p.values.getD (.list []))
  let angles : Except PyErr (Option (ℝ × ℝ × ℝ)) :=
    if gate p.ptype then
      match get_rpy_from_quaternion vals with
      | .error e => .error e
      | .ok .invalid3 => .ok Option.none
      | .ok (.result r pt yw) => .ok (some (r, pt, yw))
    else .ok Option.none
  match angles with
  | .error e => .error e
  | .ok a =>
      .ok (if writerOn then
             some ⟨a.map (fun v => v.1), a.map (fun v => v.2.1), a.map (fun v => v.2.2)⟩
           else Option.none)

end RpyOutputText

/-! ### Helper lemmas -/

theorem arctan_pos_of_pos {a : ℝ} (h : 0 < a) : 0 < Real.arctan a := by
  have h2 := Real.arctan_strictMono h
  rwa [Real.arctan_zero] at h2

theorem arctan_neg_of_neg {a : ℝ} (h : a < 0) : Real.arctan a < 0 := by
  have h2 := Real.arctan_strictMono h
  rwa [Real.arctan_zero] at h2

theorem arctan_nonpos_of_nonpos {a : ℝ} (h : a ≤ 0) : Real.arctan a ≤ 0 := by
  have h2 := Real.arctan_strictMono.monotone h
  rwa [Real.arctan_zero] at h2

/-- `atan2` always lands in the half-open interval `(-π, π]`. -/
theorem atan2_mem_range (y x : ℝ) : -Real.pi < atan2 y x ∧ atan2 y x ≤ Real.pi := by
  have hpi := Real.pi_pos
  have h1 := Real.arctan_lt_pi_div_two (y / x)
  have h2 := Real.neg_pi_div_two_lt_arctan (y / x)
  unfold atan2
  split_ifs with hx hx2 hy hy2 hy3
  · constructor <;> linarith
  · have hyx : Real.arctan (y / x) ≤ 0 := by
      have : y / x ≤ 0 := div_nonpos_of_nonneg_of_nonpos hy hx2.le
      exact arctan_nonpos_of_nonpos this
    constructor <;> linarith
  · have hyx : 0 < Real.arctan (y / x) := by
      have : 0 < y / x := div_pos_of_neg_of_neg (by linarith) hx2
      exact arctan_pos_of_pos this
    constructor <;> linarith
  · constructor <;> linarith
  · constructor <;> linarith
  · constructor <;> linarith

theorem atan2_zero_one : atan2 0 1 = 0 := by
  unfold atan2
  rw [if_pos one_pos]
  norm_num

theorem atan2_pos_pos {y x : ℝ} (hy : 0 < y) (hx : 0 < x) : 0 < atan2 y x := by
  unfold atan2
  rw [if_pos hx]
  exact arctan_pos_of_pos (div_pos hy hx)

theorem atan2_neg_pos {y x : ℝ} (hy : y < 0) (hx : 0 < x) : atan2 y x < 0 := by
  unfold atan2
  rw [if_pos hx]
  exact arctan_neg_of_neg (div_neg_of_neg_of_pos hy hx)

theorem atan2_of_pos_x {y x : ℝ} (hx : 0 < x) : atan2 y x = Real.arctan (y / x) := by
  unfold atan2
  rw [if_pos hx]

theorem degrees_zero : degrees 0 = 0 := by
  unfold degrees
  ring

theorem degrees_pi : degrees Real.pi = 180 := by
  unfold degrees
  field_simp

theorem degrees_pi_div_two : degrees (Real.pi / 2) = 90 := by
  unfold degrees
  field_simp
  ring

theorem degrees_neg_pi_div_two : degrees (-(Real.pi / 2)) = -90 := by
  unfold degrees
  field_simp
  ring

theorem degrees_le_degrees {r s : ℝ} (h : r ≤ s) : degrees r ≤ degrees s := by
  unfold degrees
  have hpi := Real.pi_pos
  gcongr

theorem degrees_lt_degrees {r s : ℝ} (h : r < s) : degrees r < degrees s := by
  unfold degrees
  have hpi := Real.pi_pos
  have h180 : (0 : ℝ) < 180 / Real.pi := by positivity
  calc r * 180 / Real.pi = r * (180 / Real.pi) := by ring
    _ < s * (180 / Real.pi) := by exact mul_lt_mul_of_pos_right h h180
    _ = s * 180 / Real.pi := by ring

theorem degrees_pos {r : ℝ} (h : 0 < r) : 0 < degrees r := by
  have := degrees_lt_degrees h
  rwa [degrees_zero] at this

theorem degrees_neg' {r : ℝ} (h : r < 0) : degrees r < 0 := by
  have := degrees_lt_degrees h
  rwa [degrees_zero] at this

/-- The sequential clamp of Orientation_Fast equals the min/max clamp of
Sensor_Dashboard. -/
theorem clampSeq_eq (t : ℝ) : clampSeq t = clampMinMax t := by
  unfold clampSeq clampMinMax
  by_cases h1 : t > 1
  · rw [if_pos h1, if_neg (by norm_num), min_eq_left h1.le,
      max_eq_right (by norm_num : (-1 : ℝ) ≤ 1)]
  · push_neg at h1
    rw [if_neg (not_lt.mpr h1)]
    by_cases h2 : t < -1
    · rw [if_pos h2, min_eq_right h1, max_eq_left h2.le]
    · rw [if_neg h2, min_eq_right h1, max_eq_right (not_lt.mp h2)]

/-- The two Euler extractions compute identical values. -/
theorem eulerFast_eq_eulerDash (x y z w : ℝ) : eulerFast x y z w = eulerDash x y z w := by
  unfold eulerFast eulerDash
  rw [clampSeq_eq]

/-- The clamp keeps its output inside `[-1, 1]`, so `asin` is never applied
outside its domain. -/
theorem clampSeq_mem (t : ℝ) : -1 ≤ clampSeq t ∧ clampSeq t ≤ 1 := by
  unfold clampSeq
  by_cases h1 : t > 1
  · rw [if_pos h1, if_neg (by norm_num)]
    norm_num
  · rw [if_neg h1]
    push_neg at h1
    by_cases h2 : t < -1
    · rw [if_pos h2]
      norm_num
    · rw [if_neg h2]
      exact ⟨not_lt.mp h2, h1⟩

theorem headMatches_iff (n : List Char) :
    ∀ h, headMatches n h = true ↔ ∃ post, h = n ++ post := by
  induction n with
  | nil =>
      intro h
      simp only [headMatches, List.nil_append]
      exact iff_of_true trivial ⟨h, rfl⟩
  | cons c cs ih =>
      intro h
      cases h with
      | nil => simp [headMatches]
      | cons d ds =>
          simp only [headMatches, Bool.and_eq_true, beq_iff_eq, ih, List.cons_append,
            List.cons_eq_cons]
          constructor
          · rintro ⟨rfl, post, rfl⟩
            exact ⟨post, rfl, rfl⟩
          · rintro ⟨post, rfl, rfl⟩
            exact ⟨rfl, post, rfl⟩

/-- `hasSub` decides declarative substring containment. -/
theorem hasSub_iff (n h : List Char) : hasSub n h = true ↔ ContainsSeq n h := by
  induction h with
  | nil =>
      unfold hasSub ContainsSeq
      rw [headMatches_iff]
      constructor
      · rintro ⟨post, hp⟩
        exact ⟨[], post, hp⟩
      · rintro ⟨pre, post, hp⟩
        rcases List.append_eq_nil.mp (List.append_eq_nil.mp hp.symm).1 with ⟨h1, h2⟩
        · exact ⟨post, by simp_all⟩
  | cons d ds ih =>
      unfold hasSub ContainsSeq
      rw [Bool.or_eq_true, headMatches_iff, ih]
      constructor
      · rintro (⟨post, hp⟩ | ⟨pre, post, hp⟩)
        · exact ⟨[], post, by simpa using hp⟩
        · exact ⟨d :: pre, post, by simp [hp]⟩
      · rintro ⟨pre, post, hp⟩
        cases pre with
        | nil => exact Or.inl ⟨post, by simpa using hp⟩
        | cons e pre' =>
            right
            refine ⟨pre', post, ?_⟩
            have := hp
            simp only [List.cons_append] at this
            exact (List.cons_eq_cons.mp this).2

/-- Evaluation of the Orientation_Fast decoder on a list starting with four
JSON numbers: the frame correction maps raw `(a, b, c, d)` to
`(-a, b, c, d)` and the angles come from `eulerFast` on the corrected
components. -/
theorem OF_decode_num4 (a b c d : ℚ) (rest : List PyVal) :
    OrientationFast.get_rpy_from_quaternion
        (.list (.num a :: .num b :: .num c :: .num d :: rest)) =
      .ok (OFRet.result
        (eulerFast (-(a : ℝ)) (b : ℝ) (c : ℝ) (d : ℝ)).1
        (eulerFast (-(a : ℝ)) (b : ℝ) (c : ℝ) (d : ℝ)).2.1
        (eulerFast (-(a : ℝ)) (b : ℝ) (c : ℝ) (d : ℝ)).2.2
        ⟨-(a : ℝ), (b : ℝ), (c : ℝ), (d : ℝ)⟩) := by
  unfold OrientationFast.get_rpy_from_quaternion
  simp [pyLen, pyIndex, pyFloat, q_fixed_of, q_conj_of]

/-- Evaluation of the Sensor_Dashboard decoder on the same inputs. -/
theorem SD_decode_num4 (a b c d : ℚ) (rest : List PyVal) :
    SensorDashboard.get_rpy_from_quaternion
        (.list (.num a :: .num b :: .num c :: .num d :: rest)) =
      .ok (SDRet.result
        (eulerDash (-(a : ℝ)) (b : ℝ) (c : ℝ) (d : ℝ)).1
        (eulerDash (-(a : ℝ)) (b : ℝ) (c : ℝ) (d : ℝ)).2.1
        (eulerDash (-(a : ℝ)) (b : ℝ) (c : ℝ) (d : ℝ)).2.2
        ⟨-(a : ℝ), (b : ℝ), (c : ℝ), (d : ℝ)⟩) := by
  unfold SensorDashboard.get_rpy_from_quaternion
  simp only [pyLen, List.length_cons, pySlice4, List.take, List.mapM, List.mapM.loop, pyFloat]
  rw [if_neg (by omega)]
  simp [q_fixed_of, q_conj_of]

/-- Evaluation of the rpy_output_text decoder: no frame correction, the
angles come from `eulerFast` on the raw components. -/
theorem TXT_decode_num4 (a b c d : ℚ) (rest : List PyVal) :
    RpyOutputText.get_rpy_from_quaternion
        (.list (.num a :: .num b :: .num c :: .num d :: rest)) =
      .ok (TXTRet.result
        (eulerFast (a : ℝ) (b : ℝ) (c : ℝ) (d : ℝ)).1
        (eulerFast (a : ℝ) (b : ℝ) (c : ℝ) (d : ℝ)).2.1
        (eulerFast (a : ℝ) (b : ℝ) (c : ℝ) (d : ℝ)).2.2) := by
  unfold RpyOutputText.get_rpy_from_quaternion
  simp [pyLen, pyIndex, pyFloat]

/-- Unfolded form of `eulerFast`. -/
theorem eulerFast_explicit (x y z w : ℝ) :
    eulerFast x y z w =
      (degrees (atan2 (2 * (w * x + y * z)) (1 - 2 * (x * x + y * y))),
       degrees (Real.arcsin (clampSeq (2 * (w * y - z * x)))),
       degrees (atan2 (2 * (w * z + x * y)) (1 - 2 * (y * y + z * z)))) := rfl

/-- Unfolded form of `eulerDash`. -/
theorem eulerDash_explicit (x y z w : ℝ) :
    eulerDash x y z w =
      (degrees (atan2 (2 * (w * x + y * z)) (1 - 2 * (x * x + y * y))),
       degrees (Real.arcsin (clampMinMax (2 * (w * y - z * x)))),
       degrees (atan2 (2 * (w * z + x * y)) (1 - 2 * (y * y + z * z)))) := rfl

theorem clampSeq_of_gt {t : ℝ} (h : 1 < t) : clampSeq t = 1 := by
  unfold clampSeq
  rw [if_pos h, if_neg (by norm_num)]

theorem clampSeq_of_lt {t : ℝ} (h : t < -1) : clampSeq t = -1 := by
  unfold clampSeq
  rw [if_neg (show ¬ t > 1 by linarith), if_pos h]

theorem clampSeq_of_mem {t : ℝ} (h1 : -1 ≤ t) (h2 : t ≤ 1) : clampSeq t = t := by
  unfold clampSeq
  rw [if_neg (show ¬ t > 1 by linarith), if_neg (show ¬ t < -1 by linarith)]

theorem degrees_neg_pi : degrees (-Real.pi) = -180 := by
  unfold degrees
  field_simp
  ring

/-- Range of the three components of `eulerFast`: the two `atan2` angles land
in `(-180, 180]` degrees and the `asin` angle in `[-90, 90]` degrees, for all
real inputs. -/
theorem eulerFast_ranges (x y z w : ℝ) :
    -180 < (eulerFast x y z w).1 ∧ (eulerFast x y z w).1 ≤ 180 ∧
    -90 ≤ (eulerFast x y z w).2.1 ∧ (eulerFast x y z w).2.1 ≤ 90 ∧
    -180 < (eulerFast x y z w).2.2 ∧ (eulerFast x y z w).2.2 ≤ 180 := by
  rw [eulerFast_explicit]
  obtain ⟨hr1, hr2⟩ := atan2_mem_range (2 * (w * x + y * z)) (1 - 2 * (x * x + y * y))
  obtain ⟨hy1, hy2⟩ := atan2_mem_range (2 * (w * z + x * y)) (1 - 2 * (y * y + z * z))
  have hp1 := Real.neg_pi_div_two_le_arcsin (clampSeq (2 * (w * y - z * x)))
  have hp2 := Real.arcsin_le_pi_div_two (clampSeq (2 * (w * y - z * x)))
  refine ⟨?_, ?_, ?_, ?_, ?_, ?_⟩
  · have := degrees_lt_degrees hr1
    rwa [degrees_neg_pi] at this
  · have := degrees_le_degrees hr2
    rwa [degrees_pi] at this
  · have := degrees_le_degrees hp1
    rwa [degrees_neg_pi_div_two] at this
  · have := degrees_le_degrees hp2
    rwa [degrees_pi_div_two] at this
  · have := degrees_lt_degrees hy1
    rwa [degrees_neg_pi] at this
  · have := degrees_le_degrees hy2
    rwa [degrees_pi] at this

/-! ### Definitions written from the wording of the spec, for comparison -/

/-- Modelled from the spec wording of C4: the claimed roll formula. -/
noncomputable def spec_roll (x y z w : ℝ) : ℝ :=
  degrees (atan2 (2 * (w * x + y * z)) (1 - 2 * (x ^ 2 + y ^ 2)))

/-- Modelled from the spec wording of C4: the claimed pitch formula, with the
argument clamped to `[-1, 1]`. -/
noncomputable def spec_pitch (x y z w : ℝ) : ℝ :=
  degrees (Real.arcsin (max (-1) (min 1 (2 * (w * y - z * x)))))

/-- Modelled from the spec wording of C4: the claimed yaw formula. -/
noncomputable def spec_yaw (x y z w : ℝ) : ℝ :=
  degrees (atan2 (2 * (w * z + x * y)) (1 - 2 * (y ^ 2 + z ^ 2)))

/-- Modelled from the claim wording of C7: dispatch exactly when the type is
one of the two rotation-vector codes or the name contains a case-insensitive
rotation substring. -/
def claimGate (t : Option ℤ) (name : String) : Bool :=
  (t == some 11 || t == some 15) || hasSub (("rotation").toList) (pyLower name)

/-- A `json.loads` stub that fails on every string; packets in the concrete
theorems below carry non-string `values` fields, which never reach it. -/
def jlNone : String → Option PyVal := fun _ => Option.none

/-! ### Claims -/

/-- C4: for every corrected quaternion `(x, y, z, w)`, both Euler extraction
variants compute exactly the spec formulas: `roll = atan2 (2(wx+yz))
(1-2(x^2+y^2))`, `pitch = asin` of `2(wy-zx)` clamped to `[-1, 1]`, and
`yaw = atan2 (2(wz+xy)) (1-2(y^2+z^2))`, each converted to degrees. -/
theorem C4_euler_formulas (x y z w : ℝ) :
    eulerFast x y z w = (spec_roll x y z w, spec_pitch x y z w, spec_yaw x y z w) ∧
    eulerDash x y z w = (spec_roll x y z w, spec_pitch x y z w, spec_yaw x y z w) := by
  have key : eulerDash x y z w = (spec_roll x y z w, spec_pitch x y z w, spec_yaw x y z w) := by
    rw [eulerDash_explicit]
    unfold spec_roll spec_pitch spec_yaw clampMinMax degrees
    rw [show (1 : ℝ) - 2 * (x * x + y * y) = 1 - 2 * (x ^ 2 + y ^ 2) by ring,
      show (1 : ℝ) - 2 * (y * y + z * z) = 1 - 2 * (y ^ 2 + z ^ 2) by ring]
  exact ⟨(eulerFast_eq_eulerDash x y z w).trans key, key⟩

/-- Witness for C4 at a concrete quaternion. -/
theorem C4_euler_formulas_witness :
    eulerFast 0 0 0 1 = (spec_roll 0 0 0 1, spec_pitch 0 0 0 1, spec_yaw 0 0 0 1) ∧
    eulerDash 0 0 0 1 = (spec_roll 0 0 0 1, spec_pitch 0 0 0 1, spec_yaw 0 0 0 1) :=
  C4_euler_formulas 0 0 0 1

/-- C6: whenever the pitch argument `t2 = 2(w y - z x)` of the corrected
quaternion exceeds 1 the decoder clamps it and returns pitch exactly 90
degrees, and symmetrically -90 degrees below -1; the clamp always lands in
`[-1, 1]`, so `asin` is never applied outside its domain. -/
theorem C6_pitch_clamped :
    (∀ a b c d : ℚ, 1 < 2 * ((d : ℝ) * b + c * a) →
       ∃ r yw q,
         OrientationFast.get_rpy_from_quaternion
             (.list [.num a, .num b, .num c, .num d]) =
           .ok (OFRet.result r 90 yw q)) ∧
    (∀ a b c d : ℚ, 2 * ((d : ℝ) * b + c * a) < -1 →
       ∃ r yw q,
         OrientationFast.get_rpy_from_quaternion
             (.list [.num a, .num b, .num c, .num d]) =
           .ok (OFRet.result r (-90) yw q)) ∧
    (∀ t : ℝ, -1 ≤ clampSeq t ∧ clampSeq t ≤ 1) := by
  refine ⟨?_, ?_, clampSeq_mem⟩
  · intro a b c d h
    have harg : (2 : ℝ) * ((d : ℝ) * (b : ℝ) - (c : ℝ) * -(a : ℝ)) =
        2 * ((d : ℝ) * b + c * a) := by ring
    have hdec := OF_decode_num4 a b c d []
    rw [eulerFast_explicit, harg, clampSeq_of_gt h, Real.arcsin_one,
      degrees_pi_div_two] at hdec
    exact ⟨_, _, _, hdec⟩
  · intro a b c d h
    have harg : (2 : ℝ) * ((d : ℝ) * (b : ℝ) - (c : ℝ) * -(a : ℝ)) =
        2 * ((d : ℝ) * b + c * a) := by ring
    have hdec := OF_decode_num4 a b c d []
    rw [eulerFast_explicit, harg, clampSeq_of_lt h, Real.arcsin_neg_one,
      degrees_neg_pi_div_two] at hdec
    exact ⟨_, _, _, hdec⟩

/-- Witness for C6 at concrete inputs whose pitch argument overshoots 1
(respectively undershoots -1) by floating-point-style excess. -/
theorem C6_pitch_clamped_witness :
    (∃ r yw q,
       OrientationFast.get_rpy_from_quaternion
           (.list [.num 0, .num (70711/100000), .num 0, .num (70711/100000)]) =
         .ok (OFRet.result r 90 yw q)) ∧
    (∃ r yw q,
       OrientationFast.get_rpy_from_quaternion
           (.list [.num 0, .num (-(70711/100000)), .num 0, .num (70711/100000)]) =
         .ok (OFRet.result r (-90) yw q)) :=
  ⟨C6_pitch_clamped.1 0 (70711/100000) 0 (70711/100000) (by push_cast; norm_num),
   C6_pitch_clamped.2.1 0 (-(70711/100000)) 0 (70711/100000) (by push_cast; norm_num)⟩

/-- C5: on every unit quaternion input the decoder succeeds with roll and yaw
in `(-180, 180]` and pitch in `[-90, 90]` degrees, and the rotation matrix of
any unit quaternion has rows of unit length that are mutually orthogonal,
exactly over real arithmetic. -/
theorem C5_unit_quat_ranges_and_orthonormal :
    (∀ a b c d : ℚ,
        (a : ℝ) ^ 2 + (b : ℝ) ^ 2 + (c : ℝ) ^ 2 + (d : ℝ) ^ 2 = 1 →
        ∃ r pt yw q,
          OrientationFast.get_rpy_from_quaternion
              (.list [.num a, .num b, .num c, .num d]) =
            .ok (OFRet.result r pt yw q) ∧
          -180 < r ∧ r ≤ 180 ∧ -90 ≤ pt ∧ pt ≤ 90 ∧ -180 < yw ∧ yw ≤ 180) ∧
    (∀ x y z w : ℝ, x ^ 2 + y ^ 2 + z ^ 2 + w ^ 2 = 1 →
        dot3 (rotmat_from_quat x y z w).1 (rotmat_from_quat x y z w).1 = 1 ∧
        dot3 (rotmat_from_quat x y z w).2.1 (rotmat_from_quat x y z w).2.1 = 1 ∧
        dot3 (rotmat_from_quat x y z w).2.2 (rotmat_from_quat x y z w).2.2 = 1 ∧
        dot3 (rotmat_from_quat x y z w).1 (rotmat_from_quat x y z w).2.1 = 0 ∧
        dot3 (rotmat_from_quat x y z w).1 (rotmat_from_quat x y z w).2.2 = 0 ∧
        dot3 (rotmat_from_quat x y z w).2.1 (rotmat_from_quat x y z w).2.2 = 0) := by
  constructor
  · intro a b c d _h
    obtain ⟨h1, h2, h3, h4, h5, h6⟩ := eulerFast_ranges (-(a : ℝ)) b c d
    exact ⟨_, _, _, _, OF_decode_num4 a b c d [], h1, h2, h3, h4, h5, h6⟩
  · intro x y z w h
    dsimp only [rotmat_from_quat, dot3]
    refine ⟨?_, ?_, ?_, ?_, ?_, ?_⟩
    · linear_combination (4 * (y ^ 2 + z ^ 2)) * h
    · linear_combination (4 * (x ^ 2 + z ^ 2)) * h
    · linear_combination (4 * (x ^ 2 + y ^ 2)) * h
    · linear_combination (-4 * x * y) * h
    · linear_combination (-4 * x * z) * h
    · linear_combination (-4 * y * z) * h

/-- Witness for C5 at the identity quaternion. -/
theorem C5_witness :
    ∃ r pt yw q,
      OrientationFast.get_rpy_from_quaternion
          (.list [.num 0, .num 0, .num 0, .num 1]) =
        .ok (OFRet.result r pt yw q) ∧
      -180 < r ∧ r ≤ 180 ∧ -90 ≤ pt ∧ pt ≤ 90 ∧ -180 < yw ∧ yw ≤ 180 :=
  C5_unit_quat_ranges_and_orthonormal.1 0 0 0 1 (by norm_num)

/-- C9: the Orientation_Fast and Sensor_Dashboard decoders agree on every
input list whose first four entries coerce to floats: same roll, pitch, yaw
and same corrected quaternion. -/
theorem C9_decoders_equivalent (l : List PyVal) (x y z w : ℚ)
    (h0 : (l.get? 0).bind pyFloat = some x)
    (h1 : (l.get? 1).bind pyFloat = some y)
    (h2 : (l.get? 2).bind pyFloat = some z)
    (h3 : (l.get? 3).bind pyFloat = some w) :
    ∃ r pt yw q,
      OrientationFast.get_rpy_from_quaternion (.list l) =
        .ok (OFRet.result r pt yw q) ∧
      SensorDashboard.get_rpy_from_quaternion (.list l) =
        .ok (SDRet.result r pt yw q) := by
  obtain ⟨v0, l0, rfl⟩ : ∃ v t, l = v :: t := by
    cases l with
    | nil => simp at h0
    | cons v t => exact ⟨v, t, rfl⟩
  obtain ⟨v1, l1, rfl⟩ : ∃ v t, l0 = v :: t := by
    cases l0 with
    | nil => simp at h1
    | cons v t => exact ⟨v, t, rfl⟩
  obtain ⟨v2, l2, rfl⟩ : ∃ v t, l1 = v :: t := by
    cases l1 with
    | nil => simp at h2
    | cons v t => exact ⟨v, t, rfl⟩
  obtain ⟨v3, l3, rfl⟩ : ∃ v t, l2 = v :: t := by
    cases l2 with
    | nil => simp at h3
    | cons v t => exact ⟨v, t, rfl⟩
  simp only [List.get?_cons_zero, List.get?_cons_succ, Option.some_bind] at h0 h1 h2 h3
  have hOF : OrientationFast.get_rpy_from_quaternion
      (.list (v0 :: v1 :: v2 :: v3 :: l3)) =
      .ok (OFRet.result (eulerFast (-(x : ℝ)) y z w).1 (eulerFast (-(x : ℝ)) y z w).2.1
        (eulerFast (-(x : ℝ)) y z w).2.2 ⟨-(x : ℝ), y, z, w⟩) := by
    unfold OrientationFast.get_rpy_from_quaternion
    simp only [pyLen, List.length_cons]
    rw [if_neg (by omega)]
    simp only [pyIndex, List.get?_cons_zero, List.get?_cons_succ, Option.some_bind,
      h0, h1, h2, h3]
    simp [q_fixed_of, q_conj_of]
  have hSD : SensorDashboard.get_rpy_from_quaternion
      (.list (v0 :: v1 :: v2 :: v3 :: l3)) =
      .ok (SDRet.result (eulerDash (-(x : ℝ)) y z w).1 (eulerDash (-(x : ℝ)) y z w).2.1
        (eulerDash (-(x : ℝ)) y z w).2.2 ⟨-(x : ℝ), y, z, w⟩) := by
    unfold SensorDashboard.get_rpy_from_quaternion
    simp only [pyLen, List.length_cons]
    rw [if_neg (by omega)]
    simp only [pySlice4, List.take, List.mapM_cons, List.mapM_nil, h0, h1, h2, h3]
    simp [q_fixed_of, q_conj_of]
  rw [show eulerDash (-(x : ℝ)) y z w = eulerFast (-(x : ℝ)) y z w from
    (eulerFast_eq_eulerDash (-(x : ℝ)) y z w).symm] at hSD
  exact ⟨_, _, _, _, hOF, hSD⟩

/-- Witness for C9 at a concrete numeric list. -/
theorem C9_decoders_equivalent_witness :
    ∃ r pt yw q,
      OrientationFast.get_rpy_from_quaternion
          (.list [.num 1, .num 0, .num 0, .num 1]) =
        .ok (OFRet.result r pt yw q) ∧
      SensorDashboard.get_rpy_from_quaternion
          (.list [.num 1, .num 0, .num 0, .num 1]) =
        .ok (SDRet.result r pt yw q) :=
  C9_decoders_equivalent [.num 1, .num 0, .num 0, .num 1] 1 0 0 1 rfl rfl rfl rfl

theorem clampSeq_zero : clampSeq 0 = 0 :=
  clampSeq_of_mem (by norm_num) (by norm_num)

/-- C2 (amended): the Orientation_Fast and Sensor_Dashboard decoders apply
the fixed two-step frame correction unconditionally — `qFixed = (x, -y, -z,
w)` then `qCorrected` its full conjugate — extract the Euler angles from the
corrected quaternion and return it; the rpy_output_text decoder applies no
correction, extracting the angles directly from the raw components and
returning no quaternion. -/
theorem C2_frame_correction (l : List PyVal) (x y z w : ℚ)
    (h0 : (l.get? 0).bind pyFloat = some x)
    (h1 : (l.get? 1).bind pyFloat = some y)
    (h2 : (l.get? 2).bind pyFloat = some z)
    (h3 : (l.get? 3).bind pyFloat = some w) :
    OrientationFast.get_rpy_from_quaternion (.list l) =
      .ok (OFRet.result
        (eulerFast (q_conj_of (q_fixed_of ⟨(x : ℝ), y, z, w⟩)).x
          (q_conj_of (q_fixed_of ⟨(x : ℝ), y, z, w⟩)).y
          (q_conj_of (q_fixed_of ⟨(x : ℝ), y, z, w⟩)).z
          (q_conj_of (q_fixed_of ⟨(x : ℝ), y, z, w⟩)).w).1
        (eulerFast (q_conj_of (q_fixed_of ⟨(x : ℝ), y, z, w⟩)).x
          (q_conj_of (q_fixed_of ⟨(x : ℝ), y, z, w⟩)).y
          (q_conj_of (q_fixed_of ⟨(x : ℝ), y, z, w⟩)).z
          (q_conj_of (q_fixed_of ⟨(x : ℝ), y, z, w⟩)).w).2.1
        (eulerFast (q_conj_of (q_fixed_of ⟨(x : ℝ), y, z, w⟩)).x
          (q_conj_of (q_fixed_of ⟨(x : ℝ), y, z, w⟩)).y
          (q_conj_of (q_fixed_of ⟨(x : ℝ), y, z, w⟩)).z
          (q_conj_of (q_fixed_of ⟨(x : ℝ), y, z, w⟩)).w).2.2
        (q_conj_of (q_fixed_of ⟨(x : ℝ), y, z, w⟩))) ∧
    SensorDashboard.get_rpy_from_quaternion (.list l) =
      .ok (SDRet.result
        (eulerDash (q_conj_of (q_fixed_of ⟨(x : ℝ), y, z, w⟩)).x
          (q_conj_of (q_fixed_of ⟨(x : ℝ), y, z, w⟩)).y
          (q_conj_of (q_fixed_of ⟨(x : ℝ), y, z, w⟩)).z
          (q_conj_of (q_fixed_of ⟨(x : ℝ), y, z, w⟩)).w).1
        (eulerDash (q_conj_of (q_fixed_of ⟨(x : ℝ), y, z, w⟩)).x
          (q_conj_of (q_fixed_of ⟨(x : ℝ), y, z, w⟩)).y
          (q_conj_of (q_fixed_of ⟨(x : ℝ), y, z, w⟩)).z
          (q_conj_of (q_fixed_of ⟨(x : ℝ), y, z, w⟩)).w).2.1
        (eulerDash (q_conj_of (q_fixed_of ⟨(x : ℝ), y, z, w⟩)).x
          (q_conj_of (q_fixed_of ⟨(x : ℝ), y, z, w⟩)).y
          (q_conj_of (q_fixed_of ⟨(x : ℝ), y, z, w⟩)).z
          (q_conj_of (q_fixed_of ⟨(x : ℝ), y, z, w⟩)).w).2.2
        (q_conj_of (q_fixed_of ⟨(x : ℝ), y, z, w⟩))) ∧
    RpyOutputText.get_rpy_from_quaternion (.list l) =
      .ok (TXTRet.result (eulerFast (x : ℝ) y z w).1 (eulerFast (x : ℝ) y z w).2.1
        (eulerFast (x : ℝ) y z w).2.2) := by
  obtain ⟨v0, l0, rfl⟩ : ∃ v t, l = v :: t := by
    cases l with
    | nil => simp at h0
    | cons v t => exact ⟨v, t, rfl⟩
  obtain ⟨v1, l1, rfl⟩ : ∃ v t, l0 = v :: t := by
    cases l0 with
    | nil => simp at h1
    | cons v t => exact ⟨v, t, rfl⟩
  obtain ⟨v2, l2, rfl⟩ : ∃ v t, l1 = v :: t := by
    cases l1 with
    | nil => simp at h2
    | cons v t => exact ⟨v, t, rfl⟩
  obtain ⟨v3, l3, rfl⟩ : ∃ v t, l2 = v :: t := by
    cases l2 with
    | nil => simp at h3
    | cons v t => exact ⟨v, t, rfl⟩
  simp only [List.get?_cons_zero, List.get?_cons_succ, Option.some_bind] at h0 h1 h2 h3
  refine ⟨?_, ?_, ?_⟩
  · unfold OrientationFast.get_rpy_from_quaternion
    simp only [pyLen, List.length_cons]
    rw [if_neg (by omega)]
    simp only [pyIndex, List.get?_cons_zero, List.get?_cons_succ, Option.some_bind,
      h0, h1, h2, h3]
  · unfold SensorDashboard.get_rpy_from_quaternion
    simp only [pyLen, List.length_cons]
    rw [if_neg (by omega)]
    simp only [pySlice4, List.take, List.mapM_cons, List.mapM_nil, h0, h1, h2, h3]
    simp
  · unfold RpyOutputText.get_rpy_from_quaternion
    simp only [pyLen, List.length_cons]
    rw [if_neg (by omega)]
    simp only [pyIndex, List.get?_cons_zero, List.get?_cons_succ, Option.some_bind,
      h0, h1, h2, h3]

/-- Witness for C2 at a concrete numeric list. -/
theorem C2_frame_correction_witness :
    OrientationFast.get_rpy_from_quaternion
        (.list [.num (3/5), .num 0, .num 0, .num (4/5)]) =
      .ok (OFRet.result
        (eulerFast (q_conj_of (q_fixed_of ⟨((3/5 : ℚ) : ℝ), ((0 : ℚ) : ℝ), ((0 : ℚ) : ℝ),
            ((4/5 : ℚ) : ℝ)⟩)).x
          (q_conj_of (q_fixed_of ⟨((3/5 : ℚ) : ℝ), ((0 : ℚ) : ℝ), ((0 : ℚ) : ℝ),
            ((4/5 : ℚ) : ℝ)⟩)).y
          (q_conj_of (q_fixed_of ⟨((3/5 : ℚ) : ℝ), ((0 : ℚ) : ℝ), ((0 : ℚ) : ℝ),
            ((4/5 : ℚ) : ℝ)⟩)).z
          (q_conj_of (q_fixed_of ⟨((3/5 : ℚ) : ℝ), ((0 : ℚ) : ℝ), ((0 : ℚ) : ℝ),
            ((4/5 : ℚ) : ℝ)⟩)).w).1
        (eulerFast (q_conj_of (q_fixed_of ⟨((3/5 : ℚ) : ℝ), ((0 : ℚ) : ℝ), ((0 : ℚ) : ℝ),
            ((4/5 : ℚ) : ℝ)⟩)).x
          (q_conj_of (q_fixed_of ⟨((3/5 : ℚ) : ℝ), ((0 : ℚ) : ℝ), ((0 : ℚ) : ℝ),
            ((4/5 : ℚ) : ℝ)⟩)).y
          (q_conj_of (q_fixed_of ⟨((3/5 : ℚ) : ℝ), ((0 : ℚ) : ℝ), ((0 : ℚ) : ℝ),
            ((4/5 : ℚ) : ℝ)⟩)).z
          (q_conj_of (q_fixed_of ⟨((3/5 : ℚ) : ℝ), ((0 : ℚ) : ℝ), ((0 : ℚ) : ℝ),
            ((4/5 : ℚ) : ℝ)⟩)).w).2.1
        (eulerFast (q_conj_of (q_fixed_of ⟨((3/5 : ℚ) : ℝ), ((0 : ℚ) : ℝ), ((0 : ℚ) : ℝ),
            ((4/5 : ℚ) : ℝ)⟩)).x
          (q_conj_of (q_fixed_of ⟨((3/5 : ℚ) : ℝ), ((0 : ℚ) : ℝ), ((0 : ℚ) : ℝ),
            ((4/5 : ℚ) : ℝ)⟩)).y
          (q_conj_of (q_fixed_of ⟨((3/5 : ℚ) : ℝ), ((0 : ℚ) : ℝ), ((0 : ℚ) : ℝ),
            ((4/5 : ℚ) : ℝ)⟩)).z
          (q_conj_of (q_fixed_of ⟨((3/5 : ℚ) : ℝ), ((0 : ℚ) : ℝ), ((0 : ℚ) : ℝ),
            ((4/5 : ℚ) : ℝ)⟩)).w).2.2
        (q_conj_of (q_fixed_of ⟨((3/5 : ℚ) : ℝ), ((0 : ℚ) : ℝ), ((0 : ℚ) : ℝ),
          ((4/5 : ℚ) : ℝ)⟩))) :=
  (C2_frame_correction [.num (3/5), .num 0, .num 0, .num (4/5)] (3/5) 0 0 (4/5)
    rfl rfl rfl rfl).1

/-- C2 (counterexample): the claim fails for the rpy_output_text variant,
which applies no frame correction: at input `(0.6, 0, 0, 0.8)` its roll is
positive while the roll extracted from the corrected quaternion — which the
claim requires of every variant — is negative. -/
theorem C2_counterexample :
    RpyOutputText.get_rpy_from_quaternion
        (.list [.num (3/5), .num 0, .num 0, .num (4/5)]) =
      .ok (TXTRet.result (degrees (atan2 (24/25) (7/25))) (degrees (Real.arcsin 0))
        (degrees (atan2 0 1))) ∧
    OrientationFast.get_rpy_from_quaternion
        (.list [.num (3/5), .num 0, .num 0, .num (4/5)]) =
      .ok (OFRet.result (degrees (atan2 (-(24/25)) (7/25))) (degrees (Real.arcsin 0))
        (degrees (atan2 0 1)) ⟨-(3/5 : ℝ), 0, 0, 4/5⟩) ∧
    0 < degrees (atan2 (24/25) (7/25)) ∧ degrees (atan2 (-(24/25)) (7/25)) < 0 := by
  refine ⟨?_, ?_, ?_, ?_⟩
  · rw [TXT_decode_num4 (3/5) 0 0 (4/5) [], eulerFast_explicit]
    push_cast
    norm_num [clampSeq_zero]
  · rw [OF_decode_num4 (3/5) 0 0 (4/5) [], eulerFast_explicit]
    push_cast
    norm_num [clampSeq_zero]
  · exact degrees_pos (atan2_pos_pos (by norm_num) (by norm_num))
  · exact degrees_neg' (atan2_neg_pos (by norm_num) (by norm_num))

/-- Evaluation of the Orientation_Fast decoder at the spec's concrete 90
degree yaw case `(0, 0, 0.7071, 0.7071)`: the two z sign flips cancel, the
corrected quaternion equals the raw input, roll and pitch are exactly 0 and
yaw is `atan2` of the stated rationals. -/
theorem OF_decode_c3 :
    OrientationFast.get_rpy_from_quaternion
        (.list [.num 0, .num 0, .num (7071/10000), .num (7071/10000)]) =
      .ok (OFRet.result 0 0
        (degrees (atan2 (99998082/100000000) (1918/100000000)))
        ⟨0, 0, 7071/10000, 7071/10000⟩) := by
  rw [OF_decode_num4 0 0 (7071/10000) (7071/10000) [], eulerFast_explicit]
  push_cast
  norm_num [clampSeq_zero, atan2_zero_one, degrees_zero]

/-- Numeric bounds on the yaw of the concrete case: it lies strictly between
89.99 and 90 degrees. -/
theorem c3_yaw_bounds :
    89.99 < degrees (atan2 (99998082/100000000) (1918/100000000)) ∧
    degrees (atan2 (99998082/100000000) (1918/100000000)) < 90 := by
  have hx : (0 : ℝ) < 1918/100000000 := by norm_num
  rw [atan2_of_pos_x hx,
    show (99998082/100000000 : ℝ) / (1918/100000000) = 99998082/1918 by norm_num]
  have hup : Real.arctan (99998082/1918 : ℝ) < Real.pi / 2 :=
    Real.arctan_lt_pi_div_two _
  have hXpos : (0 : ℝ) < 99998082/1918 := by norm_num
  have hinv_eq : Real.arctan ((99998082/1918 : ℝ)⁻¹) =
      Real.pi / 2 - Real.arctan (99998082/1918 : ℝ) :=
    Real.arctan_inv_of_pos hXpos
  have hinv_pos : 0 < Real.arctan ((99998082/1918 : ℝ)⁻¹) :=
    arctan_pos_of_pos (by norm_num)
  have hinv_lt : Real.arctan ((99998082/1918 : ℝ)⁻¹) < (99998082/1918 : ℝ)⁻¹ := by
    have hlt2 : Real.arctan ((99998082/1918 : ℝ)⁻¹) < Real.pi / 2 :=
      Real.arctan_lt_pi_div_two _
    have h3 := Real.lt_tan hinv_pos hlt2
    rwa [Real.tan_arctan] at h3
  have hlow : Real.pi / 2 - (99998082/1918 : ℝ)⁻¹ <
      Real.arctan (99998082/1918 : ℝ) := by linarith
  have hpi1 : 3.14 < Real.pi := Real.pi_gt_d2
  constructor
  · unfold degrees
    rw [lt_div_iff₀ Real.pi_pos]
    rw [show ((99998082/1918 : ℝ)⁻¹ : ℝ) = 1918/99998082 by norm_num] at hlow
    linarith
  · calc degrees (Real.arctan (99998082/1918 : ℝ))
        < degrees (Real.pi / 2) := degrees_lt_degrees hup
      _ = 90 := degrees_pi_div_two

/-- C3 (counterexample): at input `(0, 0, 0.7071, 0.7071)` the decoder
returns yaw within 0.01 of +90 degrees, not approximately -90 as claimed:
the y/z flip negates z and the conjugation negates it back, so no sign flip
survives. -/
theorem C3_counterexample :
    OrientationFast.get_rpy_from_quaternion
        (.list [.num 0, .num 0, .num (7071/10000), .num (7071/10000)]) =
      .ok (OFRet.result 0 0
        (degrees (atan2 (99998082/100000000) (1918/100000000)))
        ⟨0, 0, 7071/10000, 7071/10000⟩) ∧
    1 < |degrees (atan2 (99998082/100000000) (1918/100000000)) - (-90)| := by
  refine ⟨OF_decode_c3, ?_⟩
  obtain ⟨h1, h2⟩ := c3_yaw_bounds
  rw [abs_of_pos (by linarith)]
  linarith

/-- C3 (amended): for the concrete input quaternion `(0, 0, 0.7071, 0.7071)`
the decoder applies the y/z flip (negating z) and then the conjugation
(negating z again), so the corrected quaternion equals the raw input and the
decoder returns roll exactly 0, pitch exactly 0 and yaw approximately +90
degrees (within 0.01, just below 90). -/
theorem C3_yaw_near_positive_90 :
    OrientationFast.get_rpy_from_quaternion
        (.list [.num 0, .num 0, .num (7071/10000), .num (7071/10000)]) =
      .ok (OFRet.result 0 0
        (degrees (atan2 (99998082/100000000) (1918/100000000)))
        ⟨0, 0, 7071/10000, 7071/10000⟩) ∧
    89.99 < degrees (atan2 (99998082/100000000) (1918/100000000)) ∧
    degrees (atan2 (99998082/100000000) (1918/100000000)) < 90 :=
  ⟨OF_decode_c3, c3_yaw_bounds.1, c3_yaw_bounds.2⟩

/-- C7 (counterexample): Sensor_Dashboard dispatches a type-20 packet that
the claimed gate rejects, while Orientation_Fast and rpy_output_text do not
dispatch a rotation-named packet of another type that the claimed gate
accepts. -/
theorem C7_counterexample :
    SensorDashboard.gate (some 20) ("Magnetometer") = true ∧
    claimGate (some 20) ("Magnetometer") = false ∧
    claimGate (some 7) ("Rotation Vector") = true ∧
    OrientationFast.gate (some 7) = false ∧
    RpyOutputText.gate (some 7) = false := by
  refine ⟨?_, ?_, ?_, ?_, ?_⟩ <;> decide

/-- C7 (amended): Orientation_Fast and rpy_output_text dispatch to the
decoder exactly on type codes 11 and 15, ignoring the sensor name;
Sensor_Dashboard dispatches exactly on codes 11, 15 and 20 or on a
case-insensitive rotation substring of the name. -/
theorem C7_gate_characterization :
    (∀ t : Option ℤ, OrientationFast.gate t = true ↔ t = some 11 ∨ t = some 15) ∧
    (∀ t : Option ℤ, RpyOutputText.gate t = true ↔ t = some 11 ∨ t = some 15) ∧
    (∀ (t : Option ℤ) (name : String),
        SensorDashboard.gate t name = true ↔
          t = some 11 ∨ t = some 15 ∨ t = some 20 ∨
            ContainsSeq (("rotation").toList) (pyLower name)) := by
  refine ⟨?_, ?_, ?_⟩
  · intro t
    simp [OrientationFast.gate]
  · intro t
    simp [RpyOutputText.gate]
  · intro t name
    simp [SensorDashboard.gate, hasSub_iff, or_assoc]

/-- Witness for C7 at concrete gate inputs. -/
theorem C7_gate_characterization_witness :
    (OrientationFast.gate (some 11) = true ↔
      (some 11 : Option ℤ) = some 11 ∨ (some 11 : Option ℤ) = some 15) ∧
    (SensorDashboard.gate (some 20) ("x") = true ↔
      (some 20 : Option ℤ) = some 11 ∨ (some 20 : Option ℤ) = some 15 ∨
        (some 20 : Option ℤ) = some 20 ∨
        ContainsSeq (("rotation").toList) (pyLower ("x"))) :=
  ⟨C7_gate_characterization.1 (some 11), C7_gate_characterization.2.2 (some 20) ("x")⟩

/-- C1 (code bug): on a rotation packet whose four values are all
non-numeric, the Orientation_Fast decoder does return its sentinel — but the
sentinel is the 3-tuple `(None, None, None)` while the caller on line 208
unpacks four values, so a `ValueError` escapes `SensorVisualizer.update` and
aborts the polling loop. -/
theorem C1_invalid_rotation_packet_aborts :
    OrientationFast.get_rpy_from_quaternion
        (.list [.str ("a"), .str ("b"), .str ("c"), .str ("d")]) =
      .ok OFRet.invalid3 ∧
    OrientationFast.processPacket jlNone true
        ⟨some 11, some ("Rotation Vector"),
          some (.list [.str ("a"), .str ("b"), .str ("c"), .str ("d")])⟩ =
      .error PyErr.valueError :=
  ⟨rfl, rfl⟩

/-- The Sensor_Dashboard decoder raises only `TypeError`, never any other
exception. -/
theorem SD_decode_no_valueError (vals : PyVal) (e : PyErr)
    (h : SensorDashboard.get_rpy_from_quaternion vals = .error e) :
    e = PyErr.typeError := by
  unfold SensorDashboard.get_rpy_from_quaternion at h
  split at h
  · injection h with h2
    exact h2.symm
  · split at h
    · simp at h
    · split at h <;> simp at h

/-- C8 (counterexample): Sensor_Dashboard successfully decodes this rotation
packet yet appends no CSV row: `_update` never uses the writer. -/
theorem C8_counterexample :
    (∃ r pt yw q,
       SensorDashboard.get_rpy_from_quaternion
           (.list [.num 0, .num 0, .num 0, .num 1]) =
         .ok (SDRet.result r pt yw q)) ∧
    SensorDashboard.processPacket jlNone true
        ⟨some 11, some ("rotation vector"),
          some (.list [.num 0, .num 0, .num 0, .num 1])⟩ =
      .ok Option.none :=
  ⟨⟨_, _, _, _, SD_decode_num4 0 0 0 1 []⟩, rfl⟩

/-- C8 (amended): with CSV enabled, rpy_output_text writes exactly one row
for every packet that completes processing, with empty angle cells unless a
gated decode succeeded; Sensor_Dashboard never writes a data row (its only
non-row outcome besides success is the decoder's TypeError); Orientation_Fast
writes rows only for successfully decoded rotation packets, always with all
three angle cells filled — a failed decode produces no row. -/
theorem C8_row_policy :
    (∀ (jl : String → Option PyVal) (p : Packet) (out : Option CsvRow),
        RpyOutputText.processPacket jl true p = .ok out → ∃ row, out = some row) ∧
    (∀ (jl : String → Option PyVal) (p : Packet) (out : Option CsvRow),
        SensorDashboard.processPacket jl true p = .ok out → out = Option.none) ∧
    (∀ (jl : String → Option PyVal) (p : Packet) (row : CsvRow),
        OrientationFast.processPacket jl true p = .ok (some row) →
          row.roll.isSome ∧ row.pitch.isSome ∧ row.yaw.isSome) := by
  refine ⟨?_, ?_, ?_⟩
  · intro jl p out h
    simp only [RpyOutputText.processPacket] at h
    split at h
    · simp at h
    · simp only [if_true] at h
      injection h with h2
      exact ⟨_, h2.symm⟩
  · intro jl p out h
    simp only [SensorDashboard.processPacket] at h
    split at h
    · split at h
      · simp at h
      · injection h with h2
        exact h2.symm
      · injection h with h2
        exact h2.symm
    · injection h with h2
      exact h2.symm
  · intro jl p row h
    simp only [OrientationFast.processPacket] at h
    split at h
    · split at h
      · simp at h
      · simp at h
      · simp only [if_true] at h
        injection h with h2
        injection h2 with h3
        rw [← h3]
        exact ⟨rfl, rfl, rfl⟩
    · simp at h

/-- Witness for C8 at a concrete non-rotation packet processed by
rpy_output_text with the writer enabled. -/
theorem C8_row_policy_witness :
    ∃ row, (some (⟨Option.none, Option.none, Option.none⟩ : CsvRow) : Option CsvRow) =
      some row :=
  C8_row_policy.1 jlNone ⟨some 1, Option.none, Option.none⟩
    (some ⟨Option.none, Option.none, Option.none⟩) rfl

/-- C10 (counterexample): Sensor_Dashboard does not replace a non-string
non-list `values` field with the empty list — the value passes through
unchanged, and on a rotation packet the decoder then raises a `TypeError`
that escapes `_update`. -/
theorem C10_dashboard_passthrough :
    SensorDashboard.normalizeVals jlNone (.num 42) = .num 42 ∧
    SensorDashboard.processPacket jlNone true
        ⟨some 11, some (""), some (.num 42)⟩ = .error PyErr.typeError :=
  ⟨rfl, rfl⟩

/-- C10 (amended): all three listeners replace a string `values` field that
fails to re-parse as JSON with the one-element list holding that string, and
the decoders then return their sentinels since one element is fewer than
four; Orientation_Fast and rpy_output_text replace any other non-list value
with the empty list, while Sensor_Dashboard passes it through unchanged. -/
theorem C10_values_normalization :
    (∀ (jl : String → Option PyVal) (s : String), jl s = Option.none →
       OrientationFast.normalizeVals jl (.str s) = .list [.str s] ∧
       RpyOutputText.normalizeVals jl (.str s) = .list [.str s] ∧
       SensorDashboard.normalizeVals jl (.str s) = .list [.str s] ∧
       OrientationFast.get_rpy_from_quaternion (.list [.str s]) = .ok OFRet.invalid3 ∧
       RpyOutputText.get_rpy_from_quaternion (.list [.str s]) = .ok TXTRet.invalid3 ∧
       SensorDashboard.get_rpy_from_quaternion (.list [.str s]) = .ok SDRet.invalid4) ∧
    (∀ (jl : String → Option PyVal) (q : ℚ) (b : Bool),
       OrientationFast.normalizeVals jl (.num q) = .list [] ∧
       OrientationFast.normalizeVals jl (.boolv b) = .list [] ∧
       OrientationFast.normalizeVals jl PyVal.null = .list [] ∧
       RpyOutputText.normalizeVals jl (.num q) = .list [] ∧
       RpyOutputText.normalizeVals jl (.boolv b) = .list [] ∧
       RpyOutputText.normalizeVals jl PyVal.null = .list [] ∧
       SensorDashboard.normalizeVals jl (.num q) = .num q ∧
       SensorDashboard.normalizeVals jl (.boolv b) = .boolv b ∧
       SensorDashboard.normalizeVals jl PyVal.null = PyVal.null) := by
  constructor
  · intro jl s h
    refine ⟨?_, ?_, ?_, rfl, rfl, rfl⟩
    · simp [OrientationFast.normalizeVals, h]
    · simp [RpyOutputText.normalizeVals, h]
    · simp [SensorDashboard.normalizeVals, h]
  · intro jl q b
    exact ⟨rfl, rfl, rfl, rfl, rfl, rfl, rfl, rfl, rfl⟩

/-- Witness for C10 at a concrete unparseable string. -/
theorem C10_values_normalization_witness :
    OrientationFast.normalizeVals jlNone (.str ("oops")) = .list [.str ("oops")] ∧
    RpyOutputText.normalizeVals jlNone (.str ("oops")) = .list [.str ("oops")] ∧
    SensorDashboard.normalizeVals jlNone (.str ("oops")) = .list [.str ("oops")] ∧
    OrientationFast.get_rpy_from_quaternion (.list [.str ("oops")]) = .ok OFRet.invalid3 ∧
    RpyOutputText.get_rpy_from_quaternion (.list [.str ("oops")]) = .ok TXTRet.invalid3 ∧
    SensorDashboard.get_rpy_from_quaternion (.list [.str ("oops")]) = .ok SDRet.invalid4 :=
  C10_values_normalization.1 jlNone ("oops") rfl
